import Mathlib

/-!
Verification development for the kibble refresh-orchestration core.

The definitions below are shallow embeddings of the Go source:
* `internal/similarity` (the trigram similarity engine),
* `internal/scraper` (content extraction: RSS/Atom, generic HTML, Reddit),
* `internal/scheduler` (the refresh orchestrator, per-topic locking,
  source failure-count lifecycle),
* `internal/database/news.go` (the repository writes the orchestrator issues,
  modelled as an explicit write log).

Machine integers are modelled as `Int`/`Nat`; Go `float64` arithmetic on
Jaccard ratios is modelled over `ℚ` (the quantities divided are small
integers, and the properties proved — bounds, symmetry, exact values on
empty sets — are preserved by correctly-rounded division).  Go string
operations that the Go code performs on bytes (`len`, slicing) are modelled
on characters; none of the proved properties depends on the distinction.
External effects (HTTP fetches, XML unmarshalling, the AI provider, the
SQL store) are modelled as oracle environments supplying their outcomes,
with the repository writes recorded in an explicit write log.
-/

namespace Kibble

/-! ### Similarity engine (internal/similarity, src/unnamed/part_003) -/

/-- Go `unicode.IsLetter(r) || unicode.IsDigit(r)` (ASCII approximation of
the Unicode tables; the claims proved below do not depend on the exact
character classification). -/
def isLetterOrDigit (c : Char) : Bool := c.isAlpha || c.isDigit

/-- Character loop of `Checker.normalize`: keep letters/digits, collapse
runs of other characters into a single space.  The boolean argument is the
Go `prevSpace` flag. -/
def normalizeAux : Bool → List Char → List Char
  | _, [] => []
  | prevSpace, c :: rest =>
    if isLetterOrDigit c then c :: normalizeAux false rest
    else if !prevSpace then ' ' :: normalizeAux true rest
    else normalizeAux true rest

/-- Go `strings.TrimSpace` on a rune list (leading and trailing whitespace
removed). -/
def trimChars (l : List Char) : List Char :=
  ((l.dropWhile Char.isWhitespace).reverse.dropWhile Char.isWhitespace).reverse

/-- Model of `Checker.normalize`: lowercase, collapse non-alphanumeric runs to single
spaces, trim. -/
def normalize (text : String) : String :=
  String.mk (trimChars (normalizeAux false (text.data.map Char.toLower)))

/-- Model of `Checker.Trigrams`: all character n-grams of the normalized text,
deduplicated into a set.  `n` is the Go `Checker.ngramSize` field
(default 3). -/
def Trigrams (n : Nat) (text : String) : Finset String :=
  let runes := (normalize text).data
  ((List.range (runes.length + 1 - n)).map
    (fun i => String.mk ((runes.drop i).take n))).toFinset

/-- Model of `Checker.JaccardSimilarity`: `|A ∩ B| / |A ∪ B|`, with two empty sets
defined as maximally similar (1.0) and a defensive 0 on a zero union. -/
def JaccardSimilarity (a b : Finset String) : ℚ :=
  if a.card = 0 ∧ b.card = 0 then 1
  else if a.card + b.card - (a ∩ b).card = 0 then 0
  else ((a ∩ b).card : ℚ) / ((a.card + b.card - (a ∩ b).card : Nat) : ℚ)

/-- Model of `similarity.StoredTrigrams`, with the JSON-serialized gram set replaced
by the set itself (`TrigramsToJSON`/`TrigramsFromJSON` are a round-trip
through a JSON array of strings, i.e. the identity on the set). -/
structure StoredTrigrams where
  id : Int
  trigrams : Finset String
deriving DecidableEq

/-- Model of `Checker.IsTooSimilar`: the candidate is flagged when its trigram set
has Jaccard similarity `≥ threshold` with any stored set.  `t` is the Go
`Checker.threshold` field, `n` the `ngramSize`. -/
def IsTooSimilar (t : ℚ) (n : Nat) (newFactContent : String)
    (existingFacts : List StoredTrigrams) : Bool :=
  existingFacts.any (fun ex =>
    t ≤ JaccardSimilarity (Trigrams n newFactContent) ex.trigrams)

/-! #### Basic facts about `JaccardSimilarity` -/

/-! ### Facts refresh batch dedup (scheduler.go, refreshTopic lines 679-711) -/

/-- The per-candidate loop of `refreshTopic`: each AI-returned fact is
checked against the accumulated comparison set; a flagged fact is
discarded; otherwise `CreateFact` is attempted (`saveOK k` tells whether
the `k`-th save attempt succeeds, modelling a possible DB write failure,
in which case the Go code skips the fact without extending the set) and a
saved fact's trigram set is appended to the comparison set so later
candidates in the same batch are checked against it.  The appended
`StoredTrigrams.id` is the new row id, which similarity ignores; it is
modelled as 0.  Returns the list of persisted fact texts in order. -/
def processBatch (t : ℚ) (n : Nat) (saveOK : Nat → Bool) :
    List StoredTrigrams → Nat → List String → List String
  | _, _, [] => []
  | existing, k, content :: rest =>
    if IsTooSimilar t n content existing then
      processBatch t n saveOK existing k rest
    else if saveOK k then
      content :: processBatch t n saveOK
        (existing ++ [⟨0, Trigrams n content⟩]) (k + 1) rest
    else
      processBatch t n saveOK existing (k + 1) rest

/-! ### News-source data model and orchestrator repository writes
(internal/scheduler/scheduler.go, internal/database/news.go) -/

/-- Model of `models.NewsSource`, restricted to the fields the orchestrator's
scrape-result processing reads. -/
structure NewsSource where
  id : Int
  url : String
  name : String
  failureCount : Int
deriving DecidableEq, Repr

/-- Model of `ai.ScrapedContent`. -/
structure ScrapedContent where
  url : String
  sourceName : String
  content : String
deriving DecidableEq, Repr

/-- Model of `scraper.ScrapeResult`: in Go the struct carries a `Content` pointer and
an `Error`, exactly one of which is set (`ScrapeSource` returns either a
content or an error, and the panic-recovery path sets only `Error`). -/
structure ScrapeResult where
  source : NewsSource
  result : Except String ScrapedContent
deriving Repr

/-- Model of `models.NewsRefreshStatus` as written by `UpdateNewsRefreshStatus`
(news.go lines 342-356).  Times are modelled as integer seconds; a Go
zero-value `time.Time` is modelled as `0`. -/
structure StatusWrite where
  newsTopicID : Int
  lastRefresh : Int
  nextRefresh : Int
  status : String
  errorMessage : String
deriving DecidableEq, Repr

/-- One repository write issued by the news refresh pipeline, in program
order.  Constructors correspond to the `database.DB` methods the scheduler
calls: `UpdateNewsRefreshStatus`, `DeleteNewsSource` (a SQL `DELETE`, i.e.
permanent removal, news.go lines 224-227), `UpdateNewsSourceStatus`
(news.go lines 229-234), `CreateStory`, `DeleteOldStories`,
`UpdateNewsTopicRefreshTime`, `ClearAINewsSourcesForTopic`,
`AddNewsSource`, and `LogRefresh` (the refresh_log table). -/
inductive RepoWrite where
  | status (w : StatusWrite)
  | deleteSource (id : Int)
  | updateSource (id : Int) (isActive : Bool) (failureCount : Int) (lastError : String)
  | createStory (title summary : String)
  | deleteOldStories (topicId keep : Int)
  | topicRefreshTime (topicId : Int)
  | clearAISources (topicId : Int)
  | addSource (topicId : Int) (url name : String)
  | logRefresh (message : String)
deriving DecidableEq, Repr

/-- Error-message truncation before `UpdateNewsSourceStatus`
(scheduler.go lines 852-855). -/
def truncateErrMsg (m : String) : String :=
  if m.length > 500 then m.take 500 else m

/-- The scrape-result processing loop of `refreshNewsTopic`
(scheduler.go lines 846-875): on a failed scrape the source's failure
count is incremented; a source whose incremented count reaches 3 is
deleted (and counted for replacement discovery); otherwise the new count
is stored.  On a successful scrape a positive failure count is
decremented and stored; a zero count triggers no write.  Returns the
repository writes in order, the number of auto-removed sources, and the
successfully scraped contents. -/
def processScrapeResults : List ScrapeResult →
    List RepoWrite × Nat × List ScrapedContent
  | [] => ([], 0, [])
  | r :: rest =>
    let tl := processScrapeResults rest
    match r.result with
    | .error e =>
      let newFailureCount := r.source.failureCount + 1
      if 3 ≤ newFailureCount then
        (.deleteSource r.source.id :: tl.1, tl.2.1 + 1, tl.2.2)
      else
        (.updateSource r.source.id true newFailureCount (truncateErrMsg e) :: tl.1,
          tl.2.1, tl.2.2)
    | .ok c =>
      if 0 < r.source.failureCount then
        (.updateSource r.source.id true (r.source.failureCount - 1) "" :: tl.1,
          tl.2.1, c :: tl.2.2)
      else
        (tl.1, tl.2.1, c :: tl.2.2)

/-- The effect of the loop body of scheduler.go lines 848-875 on the stored
failure count of one source across successive refreshes, starting from
`fc`: `failed = true` iterations increment (deleting the row, `none`, when
the incremented count reaches 3), successful iterations decrement positive
counts. -/
def runOutcomes : Int → List Bool → Option Int
  | fc, [] => some fc
  | fc, failed :: rest =>
    if failed then
      if 3 ≤ fc + 1 then none else runOutcomes (fc + 1) rest
    else if 0 < fc then runOutcomes (fc - 1) rest
    else runOutcomes fc rest

/-- Whether a repository write mutates the news-source row with id `i`
(the `DeleteNewsSource` / `UpdateNewsSourceStatus` calls of the
scrape-result loop). -/
def touchesSource (i : Int) : RepoWrite → Bool
  | .deleteSource j => j = i
  | .updateSource j _ _ _ => j = i
  | _ => false

/-! ### Per-topic locking and RefreshNow (scheduler.go lines 553-568,
727-742) -/

/-- Model of `Scheduler.topicKey`: `fmt.Sprintf("%s:%d", kind, id)`. -/
def topicKey (kind : String) (id : Int) : String :=
  kind ++ ":" ++ toString id

/-- The scheduler's shared mutable state: the per-topic lock map
(`locks sync.Map` of `*sync.Mutex`; a key is in `held` exactly when its
mutex is currently locked) together with the repository write log. -/
structure SchedState where
  held : List String
  writes : List RepoWrite

/-- Model of `Scheduler.lockTopic`: `LoadOrStore` of the per-key mutex followed by a
non-blocking `TryLock` — `none` exactly when the key's mutex is already
held. -/
def lockTopic (st : SchedState) (key : String) : Option SchedState :=
  if key ∈ st.held then none else some { st with held := key :: st.held }

/-- Model of `Scheduler.RefreshNow` (scheduler.go lines 727-742): try-acquire the
per-topic lock and return an error immediately if it is held; otherwise
load the topic (`getTopic` is the repository lookup outcome — an error is
returned as-is after unlocking) and run `refreshTopic`, whose repository
writes are `refreshWrites`, unlocking afterwards (`defer mu.Unlock()`). -/
def RefreshNow (getTopic : Except String Unit) (refreshWrites : List RepoWrite)
    (st : SchedState) (topicID : Int) : SchedState × Except String Unit :=
  match lockTopic st (topicKey "fact" topicID) with
  | none => (st, .error "topic is already being refreshed")
  | some st' =>
    match getTopic with
    | .error e =>
      ({ st' with held := st'.held.erase (topicKey "fact" topicID) }, .error e)
    | .ok _ =>
      ({ held := (st'.held.erase (topicKey "fact" topicID)),
         writes := st'.writes ++ refreshWrites }, .ok ())

/-! ### News refresh pipeline (scheduler.go, refreshNewsTopic lines
796-951, safeRefreshNewsTopic lines 781-794, handleNewsRefreshError lines
1154-1162) -/

/-- Model of `models.NewsTopic`, restricted to the fields the refresh pipeline
reads. -/
structure NewsTopic where
  name : String
  storiesPerRefresh : Int
  refreshIntervalMinutes : Int
deriving Repr

/-- One summarized story as returned by `ai.SummarizeContent`. -/
structure Story where
  title : String
  summary : String
deriving Repr

/-- A write to the news_sources table issued by `discoverNewsSources` or
`replaceRemovedSources` (those two routines only ever call
`ClearAINewsSourcesForTopic` and `AddNewsSource`; in particular they never
write `NewsRefreshStatus`). -/
inductive SourceTableWrite where
  | clearAI (topicId : Int)
  | add (topicId : Int) (url name : String)
deriving Repr

def SourceTableWrite.toRepo : SourceTableWrite → RepoWrite
  | .clearAI t => .clearAISources t
  | .add t u n => .addSource t u n

/-- The outcomes of the external calls one news-topic refresh makes, in
program order: the `GetNewsTopic` lookup (`none` = error), the first
`GetActiveSourcesForNewsTopic` fetch, the `discoverNewsSources` run (error
or the source-table writes it performs), the re-fetch after discovery,
the `ScrapeSources` results, the writes of a `replaceRemovedSources` pass,
and the `SummarizeContent` call. -/
structure NewsEnv where
  topic : Option NewsTopic
  sources : Except String (List NewsSource)
  discovery : Except String (List SourceTableWrite)
  sourcesAfterDiscovery : List NewsSource
  scrapeResults : List ScrapeResult
  replaceWrites : List SourceTableWrite
  summarize : Except String (List Story)

/-- Model of `handleNewsRefreshError` followed by `logNewsRefreshError`: an upsert
of the topic's `NewsRefreshStatus` row with status "failed",
`next_refresh = now + 5 minutes` (300 s) and the error text, then a
refresh_log entry. -/
def failWrites (id now : Int) (msg : String) : List RepoWrite :=
  [.status ⟨id, 0, now + 300, "failed", msg⟩, .logRefresh msg]

/-- The tail of `refreshNewsTopic` from the scrape onwards: process the
scrape results, run a replacement-discovery pass if any source was
auto-removed, fail on zero scraped contents, summarize (failing on a
summarizer error), then persist the stories, prune old ones, mark the
status row completed and stamp the topic refresh time.  The boolean
records whether the refresh ran to completion. -/
def scrapeAndSummarize (env : NewsEnv) (now id : Int) (topic : NewsTopic)
    (pre : List RepoWrite) : List RepoWrite × Bool :=
  let res := processScrapeResults env.scrapeResults
  let w1 := pre ++ res.1 ++
    (if 0 < res.2.1 then env.replaceWrites.map SourceTableWrite.toRepo else [])
  if res.2.2.isEmpty then
    (w1 ++ failWrites id now "failed to scrape any content from active sources", false)
  else
    match env.summarize with
    | .error e => (w1 ++ failWrites id now ("summarize content: " ++ e), false)
    | .ok stories =>
      (w1 ++ stories.map (fun st => RepoWrite.createStory st.title st.summary) ++
        [RepoWrite.deleteOldStories id (topic.storiesPerRefresh * 3),
          RepoWrite.status ⟨id, now, now + topic.refreshIntervalMinutes * 60, "completed", ""⟩,
          RepoWrite.topicRefreshTime id,
          RepoWrite.logRefresh "success"], true)

/-- Model of `refreshNewsTopic`: on a failed topic lookup it only logs and returns
(no writes); otherwise it marks the status row in_progress, fetches the
active sources (running discovery first when there are none, failing if
there still are none) and proceeds to scrape-and-summarize. -/
def refreshNewsTopic (env : NewsEnv) (now id : Int) : List RepoWrite × Bool :=
  match env.topic with
  | none => ([], false)
  | some topic =>
    let w0 : List RepoWrite := [RepoWrite.status ⟨id, 0, 0, "in_progress", ""⟩]
    match env.sources with
    | .error e => (w0 ++ failWrites id now ("get sources: " ++ e), false)
    | .ok sources0 =>
      if sources0.isEmpty then
        match env.discovery with
        | .error e => (w0 ++ failWrites id now ("discover sources: " ++ e), false)
        | .ok dw =>
          let w1 := w0 ++ dw.map SourceTableWrite.toRepo
          if env.sourcesAfterDiscovery.isEmpty then
            (w1 ++ failWrites id now "no sources available for topic", false)
          else scrapeAndSummarize env now id topic w1
      else scrapeAndSummarize env now id topic w0

/-- Model of `safeRefreshNewsTopic`: runs the refresh under a deferred
`recover()`.  `panic?` injects a panic with the given message after the
first `k` repository writes of the normal execution (a panic can strike
anywhere, so only a prefix of the writes has landed); the recovery handler
then upserts a failed status row with message "panic: ..." and backoff
`now + 5 minutes`. -/
def safeRefreshNewsTopic (env : NewsEnv) (panic? : Option (Nat × String))
    (now id : Int) : List RepoWrite × Bool :=
  match panic? with
  | none => refreshNewsTopic env now id
  | some (k, m) =>
    ((refreshNewsTopic env now id).1.take k ++
      [RepoWrite.status ⟨id, 0, now + 300, "failed", "panic: " ++ m⟩], false)

/-- The `NewsRefreshStatus` upsert carried by a write, if it is one. -/
def statusOf : RepoWrite → Option StatusWrite
  | .status s => some s
  | _ => none

/-- The final state of the topic's `NewsRefreshStatus` row after a write
sequence: the last `status` upsert in the log, if any. -/
def lastStatusWrite : List RepoWrite → Option StatusWrite
  | [] => none
  | w :: rest =>
    match lastStatusWrite rest with
    | some s => some s
    | none => statusOf w

/-! ### Content extractor (internal/scraper, src/unnamed/part_016) -/

/-- Go `strings.Contains`: whether `sub` occurs as a contiguous substring. -/
def containsSub (sub : List Char) : List Char → Bool
  | [] => sub.isEmpty
  | c :: rest => sub.isPrefixOf (c :: rest) || containsSub sub rest

/-- Model of `reddit.IsRedditURL` (src/unnamed/part_010 lines 141-143):
`strings.Contains(url, "reddit.com/r/") || strings.HasPrefix(url, "r/")`. -/
def isRedditURL (url : String) : Bool :=
  containsSub "reddit.com/r/".data url.data || "r/".data.isPrefixOf url.data

/-- Model of `isRSSURL`: lowercase, strip query string and fragment, strip trailing
slashes, then test the feed-shaped path patterns. -/
def isRSSURL (u : String) : Bool :=
  let lower := u.data.map Char.toLower
  let lower := lower.takeWhile (fun c => c ≠ '?' ∧ c ≠ '#')
  let lower := (lower.reverse.dropWhile (fun c => c = '/')).reverse
  "/feed".data.isSuffixOf lower ||
  "/rss".data.isSuffixOf lower ||
  "/atom".data.isSuffixOf lower ||
  ".xml".data.isSuffixOf lower ||
  ".rss".data.isSuffixOf lower ||
  ".atom".data.isSuffixOf lower ||
  containsSub "/feeds/".data lower ||
  containsSub "/rss/".data lower

/-- Accumulator loop of Go `strings.Fields`: split on whitespace runs.
`cur` holds the current field reversed. -/
def fieldsAux (cur : List Char) : List Char → List (List Char)
  | [] => if cur.isEmpty then [] else [cur.reverse]
  | c :: rest =>
    if c.isWhitespace then
      if cur.isEmpty then fieldsAux [] rest
      else cur.reverse :: fieldsAux [] rest
    else fieldsAux (c :: cur) rest

/-- Model of `cleanText`: `strings.TrimSpace(strings.Join(strings.Fields(s), " "))`. -/
def cleanText (s : String) : String :=
  String.mk (trimChars (List.intercalate [' '] (fieldsAux [] s.data)))

/-- Character loop of `stripHTMLTags`: drop everything between `<` and `>`,
emitting a space for each closing `>`. -/
def stripHTMLTagsAux : Bool → List Char → List Char
  | _, [] => []
  | inTag, c :: rest =>
    if c = '<' then stripHTMLTagsAux true rest
    else if c = '>' then ' ' :: stripHTMLTagsAux false rest
    else if inTag then stripHTMLTagsAux inTag rest
    else c :: stripHTMLTagsAux inTag rest

/-- Model of `stripHTMLTags`. -/
def stripHTMLTags (s : String) : String :=
  String.mk (stripHTMLTagsAux false s.data)

/-- Model of `rssItem`: one RSS 2.0 `<item>` as unmarshalled by `encoding/xml`
(`ContentEncoded` is the `content:encoded` element). -/
structure RSSItem where
  title : String
  link : String
  description : String
  pubDate : String
  contentEncoded : String
deriving Repr

/-- Model of `atomLink`. -/
structure AtomLink where
  href : String
  rel : String
deriving Repr

/-- Model of `atomEntry`: one Atom `<entry>` as unmarshalled by `encoding/xml`. -/
structure AtomEntry where
  title : String
  links : List AtomLink
  summary : String
  content : String
  updated : String
deriving Repr

/-- The shared output truncation (`maxLength = 50000` with an `"..."`
marker), appearing verbatim in `ScrapeSource` (HTML path, lines 226-229),
`scrapeRedditSource` (lines 330-333) and `buildScrapedContent` (lines
554-557).  Go slices bytes; the model slices runes. -/
def truncateContent (s : String) : String :=
  if s.length > 50000 then String.mk (s.data.take 50000) ++ "..." else s

/-- Model of `url.Parse(u).Host`, approximated: strip the scheme, keep up to the
first slash.  Only used as a display-name fallback; no claim depends on
its exact value. -/
def urlHost (u : String) : String :=
  let rest :=
    if "https://".data.isPrefixOf u.data then u.data.drop 8
    else if "http://".data.isPrefixOf u.data then u.data.drop 7
    else u.data
  String.mk (rest.takeWhile (fun c => c ≠ '/'))

/-- Model of `buildScrapedContent` (lines 553-574): truncate, then resolve the
display name (source name, else feed title, else URL host). -/
def buildScrapedContent (source : NewsSource) (feedTitle contentStr : String) :
    ScrapedContent :=
  let contentStr := truncateContent contentStr
  let sourceName := source.name
  let sourceName := if sourceName = "" then feedTitle else sourceName
  let sourceName := if sourceName = "" then urlHost source.url else sourceName
  ⟨source.url, sourceName, contentStr⟩

/-- The per-item text block built by the loop body of `formatRSSItems`
(lines 473-501): title/link/date header, then the body — `content:encoded`
preferred over `description`, HTML-stripped and cleaned.  Items with an
empty title are skipped (empty block). -/
def rssItemBlock (item : RSSItem) : String :=
  if item.title = "" then ""
  else
    "ARTICLE: " ++ item.title ++ "\n" ++
    (if item.link ≠ "" then "LINK: " ++ item.link ++ "\n" else "") ++
    (if item.pubDate ≠ "" then "DATE: " ++ item.pubDate ++ "\n" else "") ++
    (let desc := item.contentEncoded
     let desc := if desc = "" then item.description else desc
     if desc ≠ "" then cleanText (stripHTMLTags desc) ++ "\n\n" else "")

/-- Model of `formatRSSItems`. -/
def formatRSSItems (source : NewsSource) (feedTitle : String)
    (items : List RSSItem) : ScrapedContent :=
  buildScrapedContent source feedTitle (String.join (items.map rssItemBlock))

/-- Model of `atomEntryLink` (lines 540-551): first link with `rel="alternate"` or
no rel, else the first link, else empty. -/
def atomEntryLink (entry : AtomEntry) : String :=
  match entry.links.find? (fun l => l.rel = "alternate" || l.rel = "") with
  | some l => l.href
  | none =>
    match entry.links with
    | [] => ""
    | l :: _ => l.href

/-- The per-entry text block built by the loop body of `formatAtomEntries`
(lines 506-534): `content` preferred over `summary`. -/
def atomEntryBlock (entry : AtomEntry) : String :=
  if entry.title = "" then ""
  else
    "ARTICLE: " ++ entry.title ++ "\n" ++
    (if atomEntryLink entry ≠ "" then "LINK: " ++ atomEntryLink entry ++ "\n" else "") ++
    (if entry.updated ≠ "" then "DATE: " ++ entry.updated ++ "\n" else "") ++
    (let desc := entry.content
     let desc := if desc = "" then entry.summary else desc
     if desc ≠ "" then cleanText (stripHTMLTags desc) ++ "\n\n" else "")

/-- Model of `formatAtomEntries`. -/
def formatAtomEntries (source : NewsSource) (feedTitle : String)
    (entries : List AtomEntry) : ScrapedContent :=
  buildScrapedContent source feedTitle (String.join (entries.map atomEntryBlock))

/-- One Reddit text post as returned by `reddit.Client.FetchPosts`. -/
structure RedditPost where
  title : String
  permalink : String
  author : String
  score : Int
  body : String
deriving Repr

/-- The per-post block of `scrapeRedditSource` (lines 320-327). -/
def redditPostBlock (post : RedditPost) : String :=
  "REDDIT POST: " ++ post.title ++ "\n" ++
  "LINK: https://reddit.com" ++ post.permalink ++ "\n" ++
  "SCORE: " ++ toString post.score ++ " | AUTHOR: u/" ++ post.author ++ "\n" ++
  post.body ++ "\n\n---\n\n"

/-- Remainder of the list after the first occurrence of `sub`
(Go `strings.Index` + slicing), or `none` when absent. -/
def afterSub (sub : List Char) : List Char → Option (List Char)
  | [] => if sub.isEmpty then some [] else none
  | c :: rest =>
    if sub.isPrefixOf (c :: rest) then some ((c :: rest).drop sub.length)
    else afterSub sub rest

/-- Model of `extractSubredditName` (lines 347-356). -/
def extractSubredditName (u : String) : String :=
  match afterSub "/r/".data u.data with
  | some rest => String.mk ('r' :: '/' :: rest.takeWhile (fun c => c ≠ '/'))
  | none => "reddit"

/-- The outcome of one HTTP feed fetch as `scrapeRSSFeed` observes it:
status code, Content-Type header, and what `xml.Unmarshal` yields for the
body as RSS (`none` = unmarshal error; otherwise channel title and items)
and as Atom. -/
structure FeedResponse where
  status : Nat
  contentType : String
  parsedRSS : Option (String × List RSSItem)
  parsedAtom : Option (String × List AtomEntry)

/-- The network-facing outcomes one `ScrapeSource` call can observe: the
feed fetch, the Colly HTML visit (page title and accumulated text from the
content/headline/paragraph/item handlers, or a visit/response error), and
the Reddit listing-API call. -/
structure ScrapeEnv where
  feed : Except String FeedResponse
  html : Except String (String × String)
  redditPosts : Except String (List RedditPost)

/-- RSS branch of `scrapeRSSFeed` (lines 454-460): a successful unmarshal
with at least one item wins. -/
def tryParseRSS (source : NewsSource) (resp : FeedResponse) :
    Option ScrapedContent :=
  match resp.parsedRSS with
  | some (title, items) =>
    if 0 < items.length then some (formatRSSItems source title items) else none
  | none => none

/-- Atom branch of `scrapeRSSFeed` (lines 462-468). -/
def tryParseAtom (source : NewsSource) (resp : FeedResponse) :
    Option ScrapedContent :=
  match resp.parsedAtom with
  | some (title, entries) =>
    if 0 < entries.length then some (formatAtomEntries source title entries) else none
  | none => none

/-- Model of `scrapeRSSFeed` (lines 423-471): fail on a non-200 status or an
explicit `text/html` Content-Type, then try RSS 2.0, then Atom, else
report an unrecognized feed. -/
def scrapeRSSFeed (env : ScrapeEnv) (source : NewsSource) :
    Except String ScrapedContent :=
  match env.feed with
  | .error e => .error ("fetch feed " ++ source.url ++ ": " ++ e)
  | .ok resp =>
    if resp.status ≠ 200 then
      .error ("feed returned status " ++ toString resp.status ++ " for " ++ source.url)
    else if containsSub "text/html".data resp.contentType.data then
      .error "URL returned HTML content-type, not a feed"
    else
      match tryParseRSS source resp with
      | some c => .ok c
      | none =>
        match tryParseAtom source resp with
        | some c => .ok c
        | none => .error ("URL " ++ source.url ++ " is not a recognized RSS/Atom feed")

/-- The generic-HTML strategy of `ScrapeSource` (lines 127-246): on a
successful visit, fail when the accumulated text is under 100 characters,
else truncate and resolve the display name (source name, else page title,
else URL host). -/
def scrapeHTML (env : ScrapeEnv) (source : NewsSource) :
    Except String ScrapedContent :=
  match env.html with
  | .error e => .error ("failed to visit " ++ source.url ++ ": " ++ e)
  | .ok (title, raw) =>
    if raw.length < 100 then
      .error ("insufficient content scraped from " ++ source.url)
    else
      let contentStr := truncateContent raw
      let sourceName := source.name
      let sourceName := if sourceName = "" then title else sourceName
      let sourceName := if sourceName = "" then urlHost source.url else sourceName
      .ok ⟨source.url, sourceName, contentStr⟩

/-- Model of `scrapeRedditSource` (lines 311-345): fail on a fetch error or zero
qualifying posts, else format, truncate and name. -/
def scrapeRedditSource (env : ScrapeEnv) (source : NewsSource) :
    Except String ScrapedContent :=
  match env.redditPosts with
  | .error e => .error ("failed to fetch Reddit posts: " ++ e)
  | .ok posts =>
    if posts.isEmpty then
      .error "no valid posts found in subreddit (text posts with >100 words)"
    else
      let contentStr := truncateContent (String.join (posts.map redditPostBlock))
      let sourceName := source.name
      let sourceName := if sourceName = "" then extractSubredditName source.url else sourceName
      .ok ⟨source.url, sourceName, contentStr⟩

/-- Model of `ScrapeSource` (lines 110-246): Reddit sources go to the listing API;
feed-shaped URLs try RSS/Atom first and fall back to the generic HTML
strategy on any feed error; everything else is generic HTML. -/
def ScrapeSource (env : ScrapeEnv) (source : NewsSource) :
    Except String ScrapedContent :=
  if isRedditURL source.url then scrapeRedditSource env source
  else if isRSSURL source.url then
    match scrapeRSSFeed env source with
    | .ok content => .ok content
    | .error _ => scrapeHTML env source
  else scrapeHTML env source

/-- Header (title / link / date) part of an RSS entry block, used to state
which body the block carries. -/
def rssItemHeader (item : RSSItem) : String :=
  "ARTICLE: " ++ item.title ++ "\n" ++
  (if item.link ≠ "" then "LINK: " ++ item.link ++ "\n" else "") ++
  (if item.pubDate ≠ "" then "DATE: " ++ item.pubDate ++ "\n" else "")

theorem JaccardSimilarity_nonneg (a b : Finset String) :
    0 ≤ JaccardSimilarity a b := by
  unfold JaccardSimilarity
  split
  · norm_num
  · split
    · norm_num
    · positivity

theorem inter_card_le_union_card (a b : Finset String) :
    (a ∩ b).card ≤ a.card + b.card - (a ∩ b).card := by
  have h1 : (a ∩ b).card ≤ a.card := Finset.card_le_card (Finset.inter_subset_left)
  have h2 : (a ∩ b).card ≤ b.card := Finset.card_le_card (Finset.inter_subset_right)
  omega

theorem JaccardSimilarity_le_one (a b : Finset String) :
    JaccardSimilarity a b ≤ 1 := by
  unfold JaccardSimilarity
  split
  · norm_num
  · split
    · norm_num
    · rename_i hu
      rw [div_le_one]
      · exact_mod_cast Nat.cast_le.mpr (inter_card_le_union_card a b)
      · have : 0 < a.card + b.card - (a ∩ b).card := Nat.pos_of_ne_zero hu
        exact_mod_cast this

theorem JaccardSimilarity_comm (a b : Finset String) :
    JaccardSimilarity a b = JaccardSimilarity b a := by
  unfold JaccardSimilarity
  rw [Finset.inter_comm b a, Nat.add_comm b.card a.card]
  simp only [and_comm]

theorem JaccardSimilarity_empty : JaccardSimilarity ∅ ∅ = 1 := by
  unfold JaccardSimilarity
  simp

/-- Claim C2: `JaccardSimilarity` applied to trigram sets lies in `[0,1]`,
is symmetric in its two gram-set arguments, and equals exactly `1` on two
empty gram sets. -/
theorem c2_jaccard_bounds_symm_empty :
    (∀ (n : Nat) (A B : String),
        0 ≤ JaccardSimilarity (Trigrams n A) (Trigrams n B) ∧
        JaccardSimilarity (Trigrams n A) (Trigrams n B) ≤ 1) ∧
    (∀ a b : Finset String, JaccardSimilarity a b = JaccardSimilarity b a) ∧
    JaccardSimilarity ∅ ∅ = 1 := by
  exact ⟨fun n A B => ⟨JaccardSimilarity_nonneg _ _, JaccardSimilarity_le_one _ _⟩,
    fun a b => JaccardSimilarity_comm a b, JaccardSimilarity_empty⟩

/-- Model of `IsTooSimilar` returns `false` exactly when the candidate's trigram set
is strictly below the threshold against every stored set. -/
theorem isTooSimilar_eq_false_iff (t : ℚ) (n : Nat) (content : String)
    (existing : List StoredTrigrams) :
    IsTooSimilar t n content existing = false ↔
    ∀ ex ∈ existing, JaccardSimilarity (Trigrams n content) ex.trigrams < t := by
  simp [IsTooSimilar, List.any_eq_false, not_le]

/-- Claim C9: `IsTooSimilar` is monotonic in the threshold: a candidate
accepted (not flagged) at threshold `t` is also accepted at every
threshold `t' ≥ t`, for the same candidate text and stored gram sets. -/
theorem c9_isTooSimilar_threshold_monotone (t t' : ℚ) (n : Nat)
    (content : String) (existing : List StoredTrigrams) (hle : t ≤ t')
    (h : IsTooSimilar t n content existing = false) :
    IsTooSimilar t' n content existing = false := by
  rw [isTooSimilar_eq_false_iff] at h ⊢
  intro ex hex
  exact lt_of_lt_of_le (h ex hex) hle

/-- Witness for `c9_isTooSimilar_threshold_monotone` at concrete inputs:
the candidate is accepted at the default threshold 0.6 (its Jaccard
similarity to the one stored set is 1/40), hence also at 0.9. -/
theorem c9_isTooSimilar_threshold_monotone_witness :
    IsTooSimilar (9/10) 3 "three distinct words"
      [⟨1, Trigrams 3 "entirely different sentence"⟩] = false :=
  c9_isTooSimilar_threshold_monotone (6/10) (9/10) 3 "three distinct words"
    [⟨1, Trigrams 3 "entirely different sentence"⟩] (by norm_num) (by
      rw [isTooSimilar_eq_false_iff]
      intro ex hex
      rw [List.mem_singleton.mp hex]
      have hA : (Trigrams 3 "three distinct words").card = 18 := by decide
      have hB : (Trigrams 3 "entirely different sentence").card = 23 := by decide
      have hI : (Trigrams 3 "three distinct words" ∩
          Trigrams 3 "entirely different sentence").card = 1 := by decide
      unfold JaccardSimilarity
      rw [hA, hB, hI]
      norm_num)

/-- Every fact persisted by the batch loop is strictly below the threshold
against every set that was in the comparison set when the loop started. -/
theorem processBatch_dissimilar_existing (t : ℚ) (n : Nat)
    (saveOK : Nat → Bool) (facts : List String) :
    ∀ (existing : List StoredTrigrams) (k : Nat) (a : String),
      a ∈ processBatch t n saveOK existing k facts →
      ∀ ex ∈ existing, JaccardSimilarity (Trigrams n a) ex.trigrams < t := by
  induction facts with
  | nil => intro existing k a ha; simp [processBatch] at ha
  | cons c rest ih =>
    intro existing k a ha ex hex
    rw [processBatch] at ha
    split at ha
    · exact ih existing k a ha ex hex
    · rename_i hsim
      split at ha
      · rcases List.mem_cons.mp ha with rfl | ha'
        · exact (isTooSimilar_eq_false_iff t n a existing).mp
            (Bool.eq_false_iff.mpr hsim) ex hex
        · exact ih _ _ a ha' ex (List.mem_append_left _ hex)
      · exact ih existing (k + 1) a ha ex hex

/-- Claim C3: among the facts persisted within one generation batch, no two
have pairwise Jaccard trigram similarity `≥` the threshold: the persisted
list is pairwise strictly below the threshold, for every initial
comparison set, every pattern of save successes/failures, and every
candidate list. -/
theorem c3_batch_pairwise_dissimilar (t : ℚ) (n : Nat) (saveOK : Nat → Bool)
    (existing : List StoredTrigrams) (k : Nat) (facts : List String) :
    (processBatch t n saveOK existing k facts).Pairwise
      (fun a b => JaccardSimilarity (Trigrams n a) (Trigrams n b) < t) := by
  induction facts generalizing existing k with
  | nil => simp [processBatch]
  | cons c rest ih =>
    rw [processBatch]
    split
    · exact ih existing k
    · split
      · refine List.Pairwise.cons (fun b hb => ?_) (ih _ _)
        have hb' := processBatch_dissimilar_existing t n saveOK rest _ _ b hb
          ⟨0, Trigrams n c⟩ (List.mem_append_right _ (List.mem_singleton.mpr rfl))
        rw [JaccardSimilarity_comm] at hb'
        exact hb'
      · exact ih existing (k + 1)

/-- Range preservation for one iteration of the failure-count update. -/
theorem runOutcomes_mem_range (fc : Int) (hfc0 : 0 ≤ fc) (hfc3 : fc < 3) :
    ∀ (outcomes : List Bool) (v : Int),
      runOutcomes fc outcomes = some v → 0 ≤ v ∧ v < 3 := by
  intro outcomes
  induction outcomes generalizing fc with
  | nil =>
    intro v hv
    rw [runOutcomes] at hv
    cases hv
    exact ⟨hfc0, hfc3⟩
  | cons failed rest ih =>
    intro v hv
    rw [runOutcomes] at hv
    split at hv
    · split at hv
      · cases hv
      · rename_i h3
        exact ih (fc + 1) (by omega) (by omega) v hv
    · split at hv
      · exact ih (fc - 1) (by omega) (by omega) v hv
      · exact ih fc hfc0 hfc3 v hv

/-- Claim C1: the stored failure count of a news source is never negative and
never reaches 3.  Concretely: (i) a failed scrape of a source with
`failureCount + 1 ≥ 3` issues exactly a permanent `DeleteNewsSource` of
that row; (ii) a failed scrape with `failureCount + 1 < 3` stores exactly
the incremented count; (iii) a successful scrape with positive count
stores exactly the decremented count, which is still non-negative;
(iv) a successful scrape with count 0 issues no write (floor at 0); and
(v) starting from the initial count 0, any sequence of refresh outcomes
either deletes the source or leaves a stored count `v` with
`0 ≤ v < 3`. -/
theorem c1_failure_count_lifecycle (s : NewsSource) (e : String)
    (c : ScrapedContent) (outcomes : List Bool) (h0 : 0 ≤ s.failureCount) :
    (3 ≤ s.failureCount + 1 →
      (processScrapeResults [⟨s, .error e⟩]).1 = [.deleteSource s.id]) ∧
    (s.failureCount + 1 < 3 →
      (processScrapeResults [⟨s, .error e⟩]).1 =
        [.updateSource s.id true (s.failureCount + 1) (truncateErrMsg e)] ∧
      0 ≤ s.failureCount + 1) ∧
    (0 < s.failureCount →
      (processScrapeResults [⟨s, .ok c⟩]).1 =
        [.updateSource s.id true (s.failureCount - 1) ""] ∧
      0 ≤ s.failureCount - 1) ∧
    (s.failureCount = 0 → (processScrapeResults [⟨s, .ok c⟩]).1 = []) ∧
    (∀ v : Int, runOutcomes 0 outcomes = some v → 0 ≤ v ∧ v < 3) := by
  refine ⟨fun h3 => ?_, fun h3 => ⟨?_, by omega⟩, fun hpos => ⟨?_, by omega⟩,
    fun hz => ?_, fun v hv => runOutcomes_mem_range 0 (by omega) (by omega) outcomes v hv⟩
  · simp only [processScrapeResults, if_pos h3]
  · simp only [processScrapeResults, if_neg (by omega : ¬ 3 ≤ s.failureCount + 1)]
  · simp only [processScrapeResults, if_pos hpos]
  · simp [processScrapeResults, hz]

/-- Witness for `c1_failure_count_lifecycle`: a source with one prior
failure, exercised on a second failure (stored count 2) and on the
across-refresh iteration `[fail, fail, succeed]`. -/
theorem c1_failure_count_lifecycle_witness :
    (processScrapeResults
        [⟨⟨7, "https://example.com/feed", "Example", 1⟩, .error "timeout"⟩]).1 =
      [.updateSource 7 true 2 "timeout"] ∧
    runOutcomes 0 [true, true, false] = some 1 := by
  have h := c1_failure_count_lifecycle ⟨7, "https://example.com/feed", "Example", 1⟩
    "timeout" ⟨"https://example.com/feed", "Example", "body"⟩ [true, true, false]
    (by decide)
  refine ⟨?_, by decide⟩
  have h2 := (h.2.1 (by decide)).1
  simpa using h2

/-- Claim C10: if every scrape result for source id `i` in the batch is a
success and that source's stored failure count is already 0, the
scrape-result processing loop issues no write at all to that source's row
— failure count, active flag and last-error text are left untouched. -/
theorem c10_no_write_on_clean_success (results : List ScrapeResult) (i : Int)
    (h : ∀ r ∈ results, r.source.id = i →
      r.source.failureCount = 0 ∧ ∃ c, r.result = .ok c) :
    ∀ w ∈ (processScrapeResults results).1, touchesSource i w = false := by
  induction results with
  | nil => intro w hw; simp [processScrapeResults] at hw
  | cons r rest ih =>
    intro w hw
    have hrest : ∀ w ∈ (processScrapeResults rest).1, touchesSource i w = false :=
      ih (fun r' hr' => h r' (List.mem_cons_of_mem r hr'))
    rw [processScrapeResults] at hw
    rcases hres : r.result with e | c
    · have hne : r.source.id ≠ i := by
        intro hid
        rcases (h r (List.mem_cons_self r rest) hid).2 with ⟨c, hc⟩
        rw [hres] at hc
        exact Except.noConfusion hc
      by_cases h3 : (3:Int) ≤ r.source.failureCount + 1
      · simp only [hres, if_pos h3, List.mem_cons] at hw
        rcases hw with rfl | hw'
        · simp [touchesSource, hne]
        · exact hrest w hw'
      · simp only [hres, if_neg h3, List.mem_cons] at hw
        rcases hw with rfl | hw'
        · simp [touchesSource, hne]
        · exact hrest w hw'
    · by_cases hpos : (0:Int) < r.source.failureCount
      · have hne : r.source.id ≠ i := by
          intro hid
          have := (h r (List.mem_cons_self r rest) hid).1
          omega
        simp only [hres, if_pos hpos, List.mem_cons] at hw
        rcases hw with rfl | hw'
        · simp [touchesSource, hne]
        · exact hrest w hw'
      · simp only [hres, if_neg hpos] at hw
        exact hrest w hw

/-- Witness for `c10_no_write_on_clean_success`: a batch where source 5
succeeds with failure count 0 (untouched) while source 6 fails (updated);
no emitted write targets source 5. -/
theorem c10_no_write_on_clean_success_witness :
    ((processScrapeResults
        [⟨⟨5, "https://a.example/feed", "A", 0⟩,
            .ok ⟨"https://a.example/feed", "A", "text"⟩⟩,
          ⟨⟨6, "https://b.example", "B", 0⟩, .error "connection refused"⟩]).1).all
      (fun w => !touchesSource 5 w) = true := by
  have h := c10_no_write_on_clean_success
    [⟨⟨5, "https://a.example/feed", "A", 0⟩,
        .ok ⟨"https://a.example/feed", "A", "text"⟩⟩,
      ⟨⟨6, "https://b.example", "B", 0⟩, .error "connection refused"⟩] 5
    (by
      intro r hr hid
      rcases List.mem_cons.mp hr with rfl | hr'
      · exact ⟨rfl, ⟨"https://a.example/feed", "A", "text"⟩, rfl⟩
      · rcases List.mem_cons.mp hr' with rfl | hr''
        · simp at hid
        · simp at hr'')
  rw [List.all_eq_true]
  intro w hw
  simpa using h w hw

/-- Claim C4: if the per-topic lock for a fact-topic id is already held when
`RefreshNow` is called, the call returns the error
"topic is already being refreshed" and leaves the state — in particular
the repository write log — completely unchanged.  Consequently, of two
overlapping `RefreshNow` calls for the same id, exactly one proceeds: from
a state where the key is free, the first call acquires the lock, and any
second call arriving while the first holds it observes the error and
performs no writes. -/
theorem c4_refreshNow_locked_no_writes (st : SchedState) (topicID : Int)
    (getTopic : Except String Unit) (refreshWrites : List RepoWrite)
    (h : topicKey "fact" topicID ∈ st.held) :
    RefreshNow getTopic refreshWrites st topicID =
      (st, .error "topic is already being refreshed") ∧
    (RefreshNow getTopic refreshWrites st topicID).1.writes = st.writes ∧
    (∀ st₀ : SchedState, topicKey "fact" topicID ∉ st₀.held →
      ∃ st₁, lockTopic st₀ (topicKey "fact" topicID) = some st₁ ∧
        RefreshNow getTopic refreshWrites st₁ topicID =
          (st₁, .error "topic is already being refreshed")) := by
  have hlock : lockTopic st (topicKey "fact" topicID) = none := by
    simp [lockTopic, h]
  refine ⟨?_, ?_, ?_⟩
  · simp [RefreshNow, hlock]
  · simp [RefreshNow, hlock]
  · intro st₀ h₀
    refine ⟨{ st₀ with held := topicKey "fact" topicID :: st₀.held }, ?_, ?_⟩
    · simp [lockTopic, h₀]
    · simp [RefreshNow, lockTopic]

/-- Witness for `c4_refreshNow_locked_no_writes`: with the lock for fact
topic 1 held, `RefreshNow` returns the error and the write log stays
empty. -/
theorem c4_refreshNow_locked_no_writes_witness :
    RefreshNow (.ok ()) [.topicRefreshTime 1] ⟨[topicKey "fact" 1], []⟩ 1 =
      (⟨[topicKey "fact" 1], []⟩, .error "topic is already being refreshed") :=
  (c4_refreshNow_locked_no_writes ⟨[topicKey "fact" 1], []⟩ 1 (.ok ())
    [.topicRefreshTime 1] (List.mem_singleton.mpr rfl)).1

theorem lastStatusWrite_append (l₁ l₂ : List RepoWrite) :
    lastStatusWrite (l₁ ++ l₂) =
      match lastStatusWrite l₂ with
      | some s => some s
      | none => lastStatusWrite l₁ := by
  induction l₁ with
  | nil =>
    simp only [List.nil_append, lastStatusWrite]
    cases lastStatusWrite l₂ <;> rfl
  | cons w rest ih =>
    rw [List.cons_append, lastStatusWrite, ih, lastStatusWrite]
    cases lastStatusWrite l₂ <;> rfl

theorem lastStatusWrite_failWrites (l : List RepoWrite) (id now : Int)
    (msg : String) :
    lastStatusWrite (l ++ failWrites id now msg) =
      some ⟨id, 0, now + 300, "failed", msg⟩ := by
  rw [lastStatusWrite_append]
  rfl

theorem lastStatusWrite_append_status (l : List RepoWrite) (s : StatusWrite) :
    lastStatusWrite (l ++ [.status s]) = some s := by
  rw [lastStatusWrite_append]
  rfl

theorem string_append_ne_empty (p e : String) (hp : p ≠ "") : p ++ e ≠ "" := by
  intro h
  apply hp
  have hd := congrArg String.data h
  simp only [String.data_append] at hd
  exact String.ext (List.append_eq_nil.mp hd).1

/-- A failure outcome of `scrapeAndSummarize` always ends in
`failWrites` with a non-empty message. -/
theorem scrapeAndSummarize_fail (env : NewsEnv) (now id : Int)
    (topic : NewsTopic) (pre : List RepoWrite)
    (h : (scrapeAndSummarize env now id topic pre).2 = false) :
    ∃ (l : List RepoWrite) (msg : String), msg ≠ "" ∧
      (scrapeAndSummarize env now id topic pre).1 = l ++ failWrites id now msg := by
  unfold scrapeAndSummarize at h ⊢
  by_cases hc : (processScrapeResults env.scrapeResults).2.2.isEmpty
  · simp only [hc, if_true]
    exact ⟨_, _, by decide, rfl⟩
  · simp only [hc, if_false] at h ⊢
    rcases hs : env.summarize with e | stories
    · simp only [hs]
      exact ⟨_, _, string_append_ne_empty "summarize content: " e (by decide), rfl⟩
    · rw [hs] at h
      simp at h

/-- Claim C5 (amended): whenever a news-topic refresh terminates in failure
— including a recovered panic anywhere inside the per-topic refresh — and
the refresh got past the initial `GetNewsTopic` lookup (or the failure is
a panic, which is recorded regardless), the topic's `NewsRefreshStatus`
row is last written with status "failed", `next_refresh = now + 5`
minutes, and a non-empty error message.  The amendment excludes the one
failure termination where the topic lookup itself fails, in which case
the code returns without writing any status row
(see the counterexample `c5_lookup_failure_counterexample`). -/
theorem c5_failure_writes_failed_status (env : NewsEnv)
    (panicInfo : Option (Nat × String)) (now id : Int)
    (hpre : env.topic ≠ none ∨ panicInfo ≠ none)
    (hfail : (safeRefreshNewsTopic env panicInfo now id).2 = false) :
    ∃ s : StatusWrite,
      lastStatusWrite (safeRefreshNewsTopic env panicInfo now id).1 = some s ∧
      s.status = "failed" ∧ s.nextRefresh = now + 300 ∧ s.errorMessage ≠ "" := by
  rcases panicInfo with _ | ⟨k, m⟩
  · rcases htopic : env.topic with _ | topic
    · rcases hpre with h | h
      · exact absurd htopic h
      · exact absurd rfl h
    · simp only [safeRefreshNewsTopic] at hfail ⊢
      unfold refreshNewsTopic at hfail ⊢
      rw [htopic] at hfail ⊢
      dsimp only at hfail ⊢
      rcases hsrc : env.sources with e | sources0
      · rw [hsrc] at hfail
        dsimp only at hfail ⊢
        exact ⟨_, lastStatusWrite_failWrites _ id now _, rfl, rfl,
          string_append_ne_empty "get sources: " e (by decide)⟩
      · rw [hsrc] at hfail
        dsimp only at hfail ⊢
        by_cases hempty : sources0.isEmpty = true
        · rw [if_pos hempty] at hfail ⊢
          rcases hdisc : env.discovery with e | dw
          · rw [hdisc] at hfail
            dsimp only at hfail ⊢
            exact ⟨_, lastStatusWrite_failWrites _ id now _, rfl, rfl,
              string_append_ne_empty "discover sources: " e (by decide)⟩
          · rw [hdisc] at hfail
            dsimp only at hfail ⊢
            by_cases hempty2 : env.sourcesAfterDiscovery.isEmpty = true
            · rw [if_pos hempty2]
              exact ⟨⟨id, 0, now + 300, "failed", "no sources available for topic"⟩,
                lastStatusWrite_failWrites _ id now _, rfl, rfl, by
                  show ("no sources available for topic" : String) ≠ ""
                  decide⟩
            · rw [if_neg hempty2] at hfail ⊢
              obtain ⟨l, msg, hmsg, heq⟩ := scrapeAndSummarize_fail env now id topic _ hfail
              rw [heq]
              exact ⟨_, lastStatusWrite_failWrites _ id now _, rfl, rfl, hmsg⟩
        · rw [if_neg hempty] at hfail ⊢
          obtain ⟨l, msg, hmsg, heq⟩ := scrapeAndSummarize_fail env now id topic _ hfail
          rw [heq]
          exact ⟨_, lastStatusWrite_failWrites _ id now _, rfl, rfl, hmsg⟩
  · exact ⟨⟨id, 0, now + 300, "failed", "panic: " ++ m⟩,
      lastStatusWrite_append_status _ _, rfl, rfl,
      string_append_ne_empty "panic: " m (by decide)⟩

/-- Witness for `c5_failure_writes_failed_status`: a refresh whose
source fetch fails with "db locked" ends with a failed status row with
backoff `now + 300` and that non-empty message. -/
theorem c5_failure_writes_failed_status_witness :
    lastStatusWrite (safeRefreshNewsTopic
        ⟨some ⟨"Space", 5, 60⟩, .error "db locked", .ok [], [], [], [], .ok []⟩
        none 1000 4).1 =
      some ⟨4, 0, 1300, "failed", "get sources: db locked"⟩ ∧
    ¬ ("get sources: db locked" = "") := by
  obtain ⟨s, hs, _, _, hmsg⟩ := c5_failure_writes_failed_status
    ⟨some ⟨"Space", 5, 60⟩, .error "db locked", .ok [], [], [], [], .ok []⟩
    none 1000 4 (.inl (by simp)) rfl
  have hconc : lastStatusWrite (safeRefreshNewsTopic
      ⟨some ⟨"Space", 5, 60⟩, .error "db locked", .ok [], [], [], [], .ok []⟩
      none 1000 4).1 = some ⟨4, 0, 1300, "failed", "get sources: db locked"⟩ := rfl
  rw [hconc] at hs
  refine ⟨hconc, ?_⟩
  cases hs
  exact hmsg

/-- Claim C5, counterexample to the unamended claim: a news-topic refresh
whose `GetNewsTopic` lookup fails terminates in failure but performs no
repository write at all — in particular no "failed" status write — so
"whenever a news-topic refresh terminates in failure the NewsRefreshStatus
is written with status failed" is false as stated. -/
theorem c5_lookup_failure_counterexample :
    (safeRefreshNewsTopic ⟨none, .ok [], .ok [], [], [], [], .ok []⟩
        none 0 7).2 = false ∧
    (safeRefreshNewsTopic ⟨none, .ok [], .ok [], [], [], [], .ok []⟩
        none 0 7).1 = [] :=
  ⟨rfl, rfl⟩

/-- Claim C7: for every RSS item with a non-empty title, when
`content:encoded` is populated the entry block's body is the HTML-stripped
`content:encoded` value — not the description — and the description is
used only when `content:encoded` is empty. -/
theorem c7_rss_prefers_content_encoded (item : RSSItem)
    (htitle : item.title ≠ "") :
    (item.contentEncoded ≠ "" →
      rssItemBlock item =
        rssItemHeader item ++ (cleanText (stripHTMLTags item.contentEncoded) ++ "\n\n")) ∧
    (item.contentEncoded = "" → item.description ≠ "" →
      rssItemBlock item =
        rssItemHeader item ++ (cleanText (stripHTMLTags item.description) ++ "\n\n")) := by
  constructor
  · intro hce
    unfold rssItemBlock rssItemHeader
    rw [if_neg htitle]
    dsimp only
    rw [if_neg hce, if_pos hce]
  · intro hce hdesc
    unfold rssItemBlock rssItemHeader
    rw [if_neg htitle]
    dsimp only
    rw [if_pos hce, if_pos hdesc]

/-- Witness for `c7_rss_prefers_content_encoded`: an item with both
`content:encoded` and `description` populated formats the stripped
`content:encoded` as its body. -/
theorem c7_rss_prefers_content_encoded_witness :
    rssItemBlock ⟨"Launch", "https://l.example/a", "short summary",
        "Tue, 01 Oct 2026", "<p>full article body</p>"⟩ =
      rssItemHeader ⟨"Launch", "https://l.example/a", "short summary",
        "Tue, 01 Oct 2026", "<p>full article body</p>"⟩ ++
        (cleanText (stripHTMLTags "<p>full article body</p>") ++ "\n\n") :=
  (c7_rss_prefers_content_encoded
    ⟨"Launch", "https://l.example/a", "short summary",
      "Tue, 01 Oct 2026", "<p>full article body</p>"⟩ (by decide)).1 (by decide)

/-- Claim C6 (amended): for non-Reddit feed-shaped URLs, a `scrapeRSSFeed`
failure makes `ScrapeSource` fall back to the generic-HTML strategy rather
than failing outright; and the generic-HTML strategy only ever succeeds
with at least 100 characters of text.  The amendment confines the 100-char
floor to the HTML strategy: a successfully parsed feed may return fewer
than 100 characters (see `c6_short_rss_success_counterexample`). -/
theorem c6_feed_fallback_html_floor :
    (∀ (env : ScrapeEnv) (src : NewsSource) (e : String),
        isRedditURL src.url = false → isRSSURL src.url = true →
        scrapeRSSFeed env src = .error e →
        ScrapeSource env src = scrapeHTML env src) ∧
    (∀ (env : ScrapeEnv) (src : NewsSource) (c : ScrapedContent),
        scrapeHTML env src = .ok c → 100 ≤ c.content.length) := by
  constructor
  · intro env src e hreddit hrss herr
    unfold ScrapeSource
    rw [hreddit, hrss, herr]
    rfl
  · intro env src c hok
    unfold scrapeHTML at hok
    rcases hh : env.html with e | ⟨title, raw⟩
    · rw [hh] at hok
      exact Except.noConfusion hok
    · rw [hh] at hok
      dsimp only at hok
      by_cases hlen : raw.length < 100
      · rw [if_pos hlen] at hok
        exact Except.noConfusion hok
      · rw [if_neg hlen] at hok
        have hc : c.content = truncateContent raw := by
          cases hok
          rfl
        rw [hc]
        unfold truncateContent
        by_cases h5 : raw.length > 50000
        · rw [if_pos h5]
          rw [String.length_append, String.length_mk, List.length_take]
          have hr : raw.data.length = raw.length := rfl
          omega
        · rw [if_neg h5]
          omega

/-- Witness for `c6_feed_fallback_html_floor`: a feed URL whose fetch
returns status 500 falls back to HTML scraping, and an HTML success with a
120-character page has at least 100 characters. -/
theorem c6_feed_fallback_html_floor_witness :
    ScrapeSource
        ⟨.ok ⟨500, "application/xml", none, none⟩,
          .ok ("T", String.mk (List.replicate 120 'a')), .error "x"⟩
        ⟨2, "https://site.example/rss", "S", 0⟩ =
      scrapeHTML
        ⟨.ok ⟨500, "application/xml", none, none⟩,
          .ok ("T", String.mk (List.replicate 120 'a')), .error "x"⟩
        ⟨2, "https://site.example/rss", "S", 0⟩ ∧
    100 ≤ (⟨"https://site.example/rss", "S",
        String.mk (List.replicate 120 'a')⟩ : ScrapedContent).content.length :=
  ⟨c6_feed_fallback_html_floor.1
      ⟨.ok ⟨500, "application/xml", none, none⟩,
        .ok ("T", String.mk (List.replicate 120 'a')), .error "x"⟩
      ⟨2, "https://site.example/rss", "S", 0⟩
      "feed returned status 500 for https://site.example/rss"
      (by decide) (by decide) rfl,
    c6_feed_fallback_html_floor.2
      ⟨.ok ⟨500, "application/xml", none, none⟩,
        .ok ("T", String.mk (List.replicate 120 'a')), .error "x"⟩
      ⟨2, "https://site.example/rss", "S", 0⟩
      ⟨"https://site.example/rss", "S", String.mk (List.replicate 120 'a')⟩
      rfl⟩

/-- Claim C6, counterexample to the unamended claim: a feed-shaped URL whose
RSS parse succeeds with one nearly-empty item makes `ScrapeSource` return
success with an 11-character text — under the claimed 100-character
minimum and with no error — so "ScrapeSource either returns content whose
text is at least 100 characters long or returns a non-nil error" is false
as stated. -/
theorem c6_short_rss_success_counterexample :
    ScrapeSource
        ⟨.ok ⟨200, "application/rss+xml", some ("T", [⟨"A", "", "", "", ""⟩]), none⟩,
          .error "net", .error "net"⟩
        ⟨1, "https://x.com/feed", "X", 0⟩ =
      .ok ⟨"https://x.com/feed", "X", "ARTICLE: A\n"⟩ ∧
    ("ARTICLE: A\n" : String).length < 100 :=
  ⟨rfl, by decide⟩

/-- Claim C8: every extraction path caps its returned text at 50,000
characters with an `"..."` marker: `truncateContent` (the shared
truncation block) returns the first 50,000 characters plus the marker when
the text exceeds the cap and the text unchanged otherwise, and the
feed/HTML/Reddit extraction outputs are exactly the truncation of their
accumulated text. -/
theorem c8_truncation_cap :
    (∀ s : String,
        (50000 < s.length →
          truncateContent s = String.mk (s.data.take 50000) ++ "...") ∧
        (s.length ≤ 50000 → truncateContent s = s)) ∧
    (∀ (source : NewsSource) (feedTitle contentStr : String),
        (buildScrapedContent source feedTitle contentStr).content =
          truncateContent contentStr) ∧
    (∀ (source : NewsSource) (feedTitle : String) (items : List RSSItem),
        (formatRSSItems source feedTitle items).content =
          truncateContent (String.join (items.map rssItemBlock))) ∧
    (∀ (env : ScrapeEnv) (src : NewsSource) (title raw : String)
        (c : ScrapedContent), env.html = .ok (title, raw) →
        scrapeHTML env src = .ok c → c.content = truncateContent raw) ∧
    (∀ (env : ScrapeEnv) (src : NewsSource) (posts : List RedditPost)
        (c : ScrapedContent), env.redditPosts = .ok posts →
        scrapeRedditSource env src = .ok c →
        c.content = truncateContent (String.join (posts.map redditPostBlock))) := by
  refine ⟨fun s => ⟨fun h => ?_, fun h => ?_⟩, fun source feedTitle contentStr => rfl,
    fun source feedTitle items => rfl, ?_, ?_⟩
  · unfold truncateContent
    rw [if_pos h]
  · unfold truncateContent
    rw [if_neg (by omega)]
  · intro env src title raw c henv hok
    unfold scrapeHTML at hok
    rw [henv] at hok
    dsimp only at hok
    by_cases hlen : raw.length < 100
    · rw [if_pos hlen] at hok
      exact Except.noConfusion hok
    · rw [if_neg hlen] at hok
      cases hok
      rfl
  · intro env src posts c henv hok
    unfold scrapeRedditSource at hok
    rw [henv] at hok
    dsimp only at hok
    by_cases hempty : posts.isEmpty = true
    · rw [if_pos hempty] at hok
      exact Except.noConfusion hok
    · rw [if_neg hempty] at hok
      cases hok
      rfl

/-- Witness for `c8_truncation_cap`: a 4-character body is returned
unmodified by `buildScrapedContent`. -/
theorem c8_truncation_cap_witness :
    (buildScrapedContent ⟨3, "https://e.example", "N", 0⟩ "T" "body").content =
      "body" :=
  (c8_truncation_cap.2.1 ⟨3, "https://e.example", "N", 0⟩ "T" "body").trans
    ((c8_truncation_cap.1 "body").2 (by decide))

end Kibble
